import Mathlib

/-
Verification of the Player Entry Alert service (server.js).

The JavaScript source is shallowly embedded below:
- JS strings become Lean String; `s.toLowerCase()` becomes jsToLower
  (ASCII case folding, the only case arising for the data involved);
  `s.includes(t)` becomes strIncludes.
- Optional / possibly-undefined JS values become Option; JS truthiness of
  an optional string (undefined, null and "" are falsy) becomes strTruthy.
- Statistic counters (`bat.atBats` etc.) are natural numbers or absent;
  `(x || 0) > 0` becomes posCount.
- The express handlers and the watcher loop become pure functions; the
  external fetches become explicit inputs (a Feed value, a schedule
  function); timer scheduling becomes an explicit next-interval output.
-/

namespace PlayerAlert

/-- ASCII lowering of a string, modelling the JS toLowerCase calls in
server.js (all compared data is ASCII). -/
def jsToLower (s : String) : String :=
  ⟨s.data.map Char.toLower⟩

/-- hay begins with pat (character lists). -/
def charsStartWith : List Char → List Char → Bool
  | [], _ => true
  | _ :: _, [] => false
  | a :: pas, b :: hbs => a == b && charsStartWith pas hbs

/-- pat occurs somewhere inside hay (character lists). -/
def charsContain : List Char → List Char → Bool
  | [], pat => charsStartWith pat []
  | c :: t, pat => charsStartWith pat (c :: t) || charsContain t pat

/-- Model of the JS `s.includes(pat)`. -/
def strIncludes (s pat : String) : Bool :=
  charsContain s.toList pat.toList

/-- JS truthiness of a possibly-undefined string: undefined/null and the
empty string are falsy. -/
def strTruthy : Option String → Bool
  | none => false
  | some s => !(s == "")

/-- Model of the JS `x || null` applied to a possibly-undefined string
(server.js lines 212-213, 315-316): an empty string collapses to null. -/
def orNull : Option String → Option String
  | none => none
  | some s => if s == "" then none else some s

/-- Model of the JS `(x || 0) > 0` on a possibly-absent counter. -/
def posCount (x : Option Nat) : Bool :=
  x.getD 0 != 0

-- ---------- Data model: one event snapshot ----------

/-- Batting counters of a boxscore roster entry (server.js line 73). -/
structure BattingStats where
  atBats : Option Nat
  plateAppearances : Option Nat
  hits : Option Nat
  runs : Option Nat
  rbi : Option Nat
  deriving DecidableEq

/-- Fielding counters of a boxscore roster entry (server.js line 74). -/
structure FieldingStats where
  putOuts : Option Nat
  assists : Option Nat
  chances : Option Nat
  deriving DecidableEq

/-- Pitching counters of a boxscore roster entry (server.js line 75).
inningsPitched is a string field such as "0.0" or "1.2". -/
structure PitchingStats where
  battersFaced : Option Nat
  pitchesThrown : Option Nat
  inningsPitched : Option String
  deriving DecidableEq

/-- One roster entry of a boxscore side (`side.players` values). An absent
`stats.batting` object and an object with all fields absent behave the
same in the source (`match?.stats?.batting || {}`), so the stats objects
are flattened into all-optional fields. -/
structure PlayerEntry where
  fullName : String
  battingOrder : Option String
  position : Option String
  batting : BattingStats
  fielding : FieldingStats
  pitching : PitchingStats
  deriving DecidableEq

/-- One play of `liveData.plays.allPlays`; only `result.description` is
read by the source. -/
structure Play where
  description : Option String
  deriving DecidableEq

-- ---------- Entry Detector ----------

/-- Embedding of playerAppearedFromBoxscore (server.js lines 70-95):
the boxscore participation heuristic. The JS `if (!match) return false`
is the `none` case; `Boolean(bo || ...)` makes the battingOrder test a
string-truthiness test, and `pit.inningsPitched && pit.inningsPitched
!== '0.0'` is truthy iff the field is a non-empty string other than
"0.0". -/
def playerAppearedFromBoxscore : Option PlayerEntry → Bool
  | none => false
  | some m =>
    let battingActivity :=
      posCount m.batting.atBats ||
      posCount m.batting.plateAppearances ||
      posCount m.batting.hits ||
      posCount m.batting.runs ||
      posCount m.batting.rbi
    let fieldingActivity :=
      posCount m.fielding.putOuts ||
      posCount m.fielding.assists ||
      posCount m.fielding.chances
    let pitchingActivity :=
      posCount m.pitching.battersFaced ||
      posCount m.pitching.pitchesThrown ||
      (strTruthy m.pitching.inningsPitched &&
        !(m.pitching.inningsPitched.getD "" == "0.0"))
    strTruthy m.battingOrder || battingActivity || fieldingActivity ||
      pitchingActivity

/-- The fixed substitution phrases of server.js lines 100-105. -/
def keywords : List String :=
  ["defensive substitution",
   "pinch-hits", "pinch hits",
   "pinch-running", "pinch runs",
   "enters the game", "replaces"]

/-- Embedding of playerAppearedFromPlays (server.js lines 97-112): the
narrative heuristic. The guard `!allPlays?.length || !playerName` is the
isEmpty / empty-name test. -/
def playerAppearedFromPlays (allPlays : List Play) (playerName : String) : Bool :=
  if allPlays.isEmpty || playerName == "" then false
  else
    let needle := jsToLower playerName
    allPlays.any (fun p =>
      let desc := jsToLower (p.description.getD "")
      strIncludes desc needle && keywords.any (fun k => strIncludes desc k))

/-- The OR-combination of the two heuristics, as computed at server.js
lines 204-206 and 308-310 (`entered = playerAppearedFromBoxscore(match)
|| playerAppearedFromPlays(allPlays, playerName)`). -/
def entryDetector (entry : Option PlayerEntry) (plays : List Play)
    (playerName : String) : Bool :=
  playerAppearedFromBoxscore entry || playerAppearedFromPlays plays playerName

-- ---------- Identifier Resolver: team name ----------

/-- One record of the provider teams list (server.js fetchTeamsAFL). -/
structure Team where
  id : Nat
  name : String
  teamName : Option String
  deriving DecidableEq

/-- First matching strategy of getTeamIdByName (server.js line 48):
case-insensitive exact match on the full name. q is already lowered. -/
def nameExactMatch (q : String) (t : Team) : Bool :=
  jsToLower t.name == q

/-- Second strategy (line 49): case-insensitive exact match on the
secondary short-name field, absent treated as "". -/
def shortNameExactMatch (q : String) (t : Team) : Bool :=
  jsToLower (t.teamName.getD "") == q

/-- Third strategy (line 50): case-insensitive substring match on the
full name. -/
def nameSubstringMatch (q : String) (t : Team) : Bool :=
  strIncludes (jsToLower t.name) q

/-- Embedding of getTeamIdByName (server.js lines 45-53). The JS
`find(a) || find(b) || find(c)` cascade is the nested match; the thrown
Error is the Except.error case. -/
def getTeamIdByName (teams : List Team) (teamName : String) : Except String Nat :=
  let q := jsToLower teamName
  let hit :=
    match teams.find? (nameExactMatch q) with
    | some t => some t
    | none =>
      match teams.find? (shortNameExactMatch q) with
      | some t => some t
      | none => teams.find? (nameSubstringMatch q)
  match hit with
  | some t => Except.ok t.id
  | none =>
    Except.error ("Could not resolve team id for \"" ++ teamName ++
      "\". Try entering a gamePk or enable Simulation Mode.")

-- ---------- Identifier Resolver: date fallback ----------

/-- First scheduled event (with a JS-truthy gamePk, i.e. nonzero) over
a list of dates. This is the shared shape of the two `for i = 1..3`
fallback loops of resolveGamePkIfNeeded (server.js lines 258-267): each
date is queried in order and the first hit is returned. `sched tid d`
is the external `getScheduleForDate` result for that team and date,
dates being integers so that day arithmetic is addition. -/
def firstEvent (sched : Nat → Int → Option Nat) (tid : Nat) :
    List Int → Option Nat
  | [] => none
  | d :: rest =>
    match sched tid d with
    | some pk => if pk == 0 then firstEvent sched tid rest else some pk
    | none => firstEvent sched tid rest

/-- The schedule search part of resolveGamePkIfNeeded (server.js lines
254-268): resolve the team id, query the exact date, then the three
previous days (most recent first), then the three following days
(soonest first); throw if nothing is found. -/
def resolveSearch (teams : List Team) (sched : Nat → Int → Option Nat)
    (team : String) (date : Int) : Except String String :=
  match getTeamIdByName teams team with
  | Except.error e => Except.error e
  | Except.ok tid =>
    match firstEvent sched tid [date] with
    | some pk => Except.ok (toString pk)
    | none =>
      match firstEvent sched tid [date - 1, date - 2, date - 3] with
      | some pk => Except.ok (toString pk)
      | none =>
        match firstEvent sched tid [date + 1, date + 2, date + 3] with
        | some pk => Except.ok (toString pk)
        | none => Except.error "No game found for team near the given date"

/-- Embedding of resolveGamePkIfNeeded (server.js lines 250-269). The
simulate check comes first, then the JS-truthy gamePk check (a zero
gamePk is falsy and falls through to the search). -/
def resolveGamePkIfNeeded (teams : List Team) (sched : Nat → Int → Option Nat)
    (team : String) (date : Int) (gamePk : Option Nat) (simulate : Bool) :
    Except String String :=
  if simulate then Except.ok "(simulation)"
  else
    match gamePk with
    | some pk =>
      if pk == 0 then resolveSearch teams sched team date
      else Except.ok (toString pk)
    | none => resolveSearch teams sched team date

/-- Modelled from the spec (and used only as the comparison side of the
date-fallback claim): "query the schedule for the exact target date; if
no event is scheduled that date, search date-3..date-1 (most recent
first) then date+1..date+3 (soonest first), returning the first date
with a scheduled event" — i.e. the first date in the given list on
which the schedule has an event. -/
def firstScheduledSpec (sched : Nat → Int → Option Nat) (tid : Nat) :
    List Int → Option Nat
  | [] => none
  | d :: rest =>
    match sched tid d with
    | some pk => some pk
    | none => firstScheduledSpec sched tid rest

-- ---------- One event snapshot as fetched (live feed) ----------

/-- The parts of a live-feed response that the source reads: the game
state label, the two team names, the two boxscore sides (absent when
the boxscore is not yet populated; each side carries its roster
entries), and the play list. -/
structure Feed where
  detailedState : Option String
  homeName : Option String
  awayName : Option String
  homeBox : Option (List PlayerEntry)
  awayBox : Option (List PlayerEntry)
  allPlays : List Play
  deriving DecidableEq

/-- The roster lookup of server.js lines 185-188 and 298-301:
case-insensitive exact full-name match over a side's player entries. -/
def rosterFindByName (players : List PlayerEntry) (playerName : String) :
    Option PlayerEntry :=
  players.find? (fun p => jsToLower p.fullName == jsToLower playerName)

-- ---------- One-shot status endpoint ----------

/-- Observable content of a /api/playerStatus response: HTTP status,
error code when present, and the payload fields the claims mention. -/
structure PSResp where
  status : Nat
  code : Option String
  inGame : Option Bool
  side : Option String
  battingOrder : Option String
  position : Option String
  simulated : Bool
  reason : Option String
  deriving DecidableEq

/-- The team-filter test of server.js lines 166-177: a supplied
(truthy) team query must be a case-insensitive substring of the home or
away team name, otherwise the request is rejected. -/
def teamFilterPasses (team : Option String) (feed : Feed) : Bool :=
  if strTruthy team then
    let t := jsToLower (team.getD "")
    strIncludes (jsToLower (feed.homeName.getD "")) t ||
      strIncludes (jsToLower (feed.awayName.getD "")) t
  else true

/-- Embedding of the GET /api/playerStatus handler (server.js lines
141-221), with the fetched feed as an explicit input. Branch order as
in the source: simulation, missing-parameter 400, team-mismatch 409,
boxscore-not-available, roster-not-found 404, normal answer. -/
def playerStatusHandler (simulate : Bool) (gamePk playerName team : Option String)
    (feed : Feed) : PSResp :=
  if simulate then
    { status := 200, code := none, inGame := some true, side := some "home",
      battingOrder := some "501", position := some "2B", simulated := true,
      reason := none }
  else if !(strTruthy gamePk) || !(strTruthy playerName) then
    { status := 400, code := none, inGame := none, side := none,
      battingOrder := none, position := none, simulated := false,
      reason := some "gamePk and playerName are required" }
  else if !(teamFilterPasses team feed) then
    { status := 409, code := some "TEAM_MISMATCH", inGame := none, side := none,
      battingOrder := none, position := none, simulated := false,
      reason := some "Team mismatch" }
  else
    match feed.homeBox, feed.awayBox with
    | some hb, some ab =>
      let pn := playerName.getD ""
      match rosterFindByName hb pn, rosterFindByName ab pn with
      | none, none =>
        { status := 404, code := some "PLAYER_NOT_IN_GAME", inGame := none,
          side := none, battingOrder := none, position := none,
          simulated := false, reason := none }
      | hm, am =>
        let entry := match hm with | some h => some h | none => am
        let whichSide := if hm.isSome then some "home" else some "away"
        let entered := entryDetector entry feed.allPlays pn
        { status := 200, code := none, inGame := some entered,
          side := whichSide,
          battingOrder := orNull (entry.bind (fun p => p.battingOrder)),
          position := orNull (entry.bind (fun p => p.position)),
          simulated := false, reason := none }
    | _, _ =>
      { status := 200, code := none, inGame := some false, side := none,
        battingOrder := none, position := none, simulated := false,
        reason := some "Boxscore not available yet" }

-- ---------- Watcher: per-poll status ----------

/-- The value assembled by getStatusOnce (server.js lines 312-318). -/
structure WStatus where
  inGame : Bool
  side : Option String
  battingOrder : Option String
  position : Option String
  rawGameState : String
  deriving DecidableEq

/-- Embedding of getStatusOnce (server.js lines 285-319). The roster is
searched only when both boxscore sides are present (`if (home && away)`);
otherwise side and match stay null, and the entry detector still runs on
the null match and the play list. There is no failure outcome besides
the fetch itself: a player on neither roster yields a normal status. -/
def getStatusOnce (simulate : Bool) (playerName : String) (feed : Feed) :
    WStatus :=
  if simulate then
    { inGame := true, side := some "home", battingOrder := some "501",
      position := some "2B", rawGameState := "In Progress (Simulated)" }
  else
    let state := feed.detailedState.getD "Unknown"
    let hm :=
      match feed.homeBox, feed.awayBox with
      | some hb, some _ => rosterFindByName hb playerName
      | _, _ => none
    let am :=
      match feed.homeBox, feed.awayBox with
      | some _, some ab => rosterFindByName ab playerName
      | _, _ => none
    let side := if hm.isSome then some "home"
      else if am.isSome then some "away" else none
    let entry := match hm with | some h => some h | none => am
    { inGame := entryDetector entry feed.allPlays playerName,
      side := side,
      battingOrder := orNull (entry.bind (fun p => p.battingOrder)),
      position := orNull (entry.bind (fun p => p.position)),
      rawGameState := state }

-- ---------- Watcher Engine ----------

/-- Fast polling interval in ms (server.js line 243). -/
def POLL_FAST : Int := 5000

/-- Medium (default) polling interval in ms (server.js line 244). -/
def POLL_SLOW : Int := 30000

/-- Slowest polling interval in ms (server.js line 245). -/
def POLL_FINAL : Int := 60000

/-- Interval selection of the loop (server.js lines 340-343): an
in-progress label selects the fast interval, else a final label the
slowest, else the medium one; matching is lowercased substring. -/
def pollInterval (rawGameState : String) : Int :=
  let st := jsToLower rawGameState
  if strIncludes st "progress" then POLL_FAST
  else if strIncludes st "final" then POLL_FINAL
  else POLL_SLOW

/-- The per-subscription parameters bound by startAdaptiveWatcher
(server.js lines 321-325). -/
structure WatchParams where
  playerName : String
  team : String
  emailTo : Option String
  cooldownSec : Int
  stopAfterAlert : Bool
  deriving DecidableEq

/-- Model of the request-body destructuring defaults of
/api/watch/start and startAdaptiveWatcher (server.js lines 324,
386-387): a missing cooldownSec defaults to 300 and a missing
stopAfterAlert to true. -/
def mkWatchParams (playerName team : String) (emailTo : Option String)
    (cooldownSec : Option Int) (stopAfterAlert : Option Bool) : WatchParams :=
  { playerName := playerName, team := team, emailTo := emailTo,
    cooldownSec := cooldownSec.getD 300,
    stopAfterAlert := stopAfterAlert.getD true }

/-- The mutable per-watcher state of server.js line 328. inRegistry
models membership of this watcher in the process-wide `watchers` map
(what GET /api/watch enumerates); stopWatcher (lines 368-375) sets
stopped and deletes the map entry. -/
structure WState where
  lastInGame : Bool
  lastAlertAt : Int
  stopped : Bool
  inRegistry : Bool
  deriving DecidableEq

/-- The initial watcher state (server.js line 328): lastInGame false,
lastAlertAt 0, not stopped, registered. -/
def initWState : WState :=
  { lastInGame := false, lastAlertAt := 0, stopped := false,
    inRegistry := true }

/-- Observable effects of one execution of `loop`: whether the alert
branch ran, whether an email send was attempted, whether a send error
was logged, whether a poll error was logged, and the delay of the next
scheduled poll (none when the loop did not reschedule). -/
structure StepOut where
  alertFired : Bool
  emailAttempted : Bool
  emailErrorLogged : Bool
  pollErrorLogged : Bool
  next : Option Int
  deriving DecidableEq

/-- The alert trigger test of server.js lines 345-347: rising edge
(`!state.lastInGame && s.inGame`) and elapsed cooldown
(`now - state.lastAlertAt >= cooldownSec * 1000`). -/
def alertCond (p : WatchParams) (st : WState) (s : WStatus) (now : Int) : Bool :=
  !st.lastInGame && s.inGame &&
    decide (p.cooldownSec * 1000 ≤ now - st.lastAlertAt)

/-- Embedding of one execution of `loop` (server.js lines 336-361) on a
completed poll. The poll result is an explicit input: `Except.error`
is a failed getStatusOnce (the catch block: log and reschedule at
POLL_SLOW, no state change), `Except.ok s` a successful one. emailOk
tells whether the attempted notification send succeeded; the
try/catch around sendEmail (line 349) makes every state field
independent of it. On the alert branch lastAlertAt is set to now;
with stopAfterAlert the watcher is stopped and deregistered and the
loop returns without rescheduling (line 351), otherwise — and on
every non-alert success — lastInGame is set to the observed value and
the next poll is scheduled (scheduleNext refuses when stopped). -/
def loopStep (p : WatchParams) (st : WState) (res : Except Unit WStatus)
    (now : Int) (emailOk : Bool) : WState × StepOut :=
  match res with
  | Except.error _ =>
    (st, { alertFired := false, emailAttempted := false,
           emailErrorLogged := false, pollErrorLogged := true,
           next := if st.stopped then none else some POLL_SLOW })
  | Except.ok s =>
    let interval := pollInterval s.rawGameState
    if alertCond p st s now then
      let attempted := p.emailTo.isSome
      let st1 : WState := { st with lastAlertAt := now }
      if p.stopAfterAlert then
        ({ st1 with stopped := true, inRegistry := false },
         { alertFired := true, emailAttempted := attempted,
           emailErrorLogged := attempted && !emailOk,
           pollErrorLogged := false, next := none })
      else
        let st2 := { st1 with lastInGame := s.inGame }
        (st2, { alertFired := true, emailAttempted := attempted,
                emailErrorLogged := attempted && !emailOk,
                pollErrorLogged := false,
                next := if st2.stopped then none else some interval })
    else
      let st2 := { st with lastInGame := s.inGame }
      (st2, { alertFired := false, emailAttempted := false,
              emailErrorLogged := false, pollErrorLogged := false,
              next := if st2.stopped then none else some interval })

/-- A watcher run over a list of completed polls, each given as its
result and its completion time (ms since epoch, as Date.now). The run
stops, as the source does, after a step that schedules no next poll.
The output records each executed poll as (alertFired, time). -/
def runLoop (p : WatchParams) (emailOk : Bool) :
    WState → List (Except Unit WStatus × Int) → WState × List (Bool × Int)
  | st, [] => (st, [])
  | st, (r, t) :: rest =>
    let x := loopStep p st r t emailOk
    match x.2.next with
    | none => (x.1, [(x.2.alertFired, t)])
    | some _ =>
      let y := runLoop p emailOk x.1 rest
      (y.1, (x.2.alertFired, t) :: y.2)

/-- Times of the polls of a run on which the alert branch ran. -/
def alertTimes (outs : List (Bool × Int)) : List Int :=
  (outs.filter (fun o => o.1)).map (fun o => o.2)

-- ---------- Concrete fixtures ----------

/-- A successful poll that observes the player as active mid-game. -/
def statusActive : WStatus :=
  { inGame := true, side := some "home", battingOrder := some "501",
    position := some "2B", rawGameState := "In Progress" }

/-- A successful poll that observes the player as not active. -/
def statusInactive : WStatus :=
  { inGame := false, side := none, battingOrder := none, position := none,
    rawGameState := "In Progress" }

/-- A watcher with the default cooldown and auto-stop disabled. -/
def watchNoStop : WatchParams :=
  mkWatchParams "Cade Doughty" "Glendale Desert Dogs" none none (some false)

/-- All-absent batting counters. -/
def noBatting : BattingStats := ⟨none, none, none, none, none⟩

/-- All-absent fielding counters. -/
def noFielding : FieldingStats := ⟨none, none, none⟩

/-- All-absent pitching counters. -/
def noPitching : PitchingStats := ⟨none, none, none⟩

/-- Every participation counter of the entry is zero or absent: each
numeric counter defaults to zero, and the innings-pitched string is
absent or the zero-innings literal. -/
@[reducible] def countersZeroOrAbsent (e : PlayerEntry) : Prop :=
  e.batting.atBats.getD 0 = 0 ∧ e.batting.plateAppearances.getD 0 = 0 ∧
  e.batting.hits.getD 0 = 0 ∧ e.batting.runs.getD 0 = 0 ∧
  e.batting.rbi.getD 0 = 0 ∧
  e.fielding.putOuts.getD 0 = 0 ∧ e.fielding.assists.getD 0 = 0 ∧
  e.fielding.chances.getD 0 = 0 ∧
  e.pitching.battersFaced.getD 0 = 0 ∧ e.pitching.pitchesThrown.getD 0 = 0 ∧
  (e.pitching.inningsPitched = none ∨ e.pitching.inningsPitched = some "0.0")

/-- A roster entry with a lineup marker but no counters at all. -/
def entryMarkerOnly : PlayerEntry :=
  ⟨"Cade Doughty", some "501", none, noBatting, noFielding, noPitching⟩

/-- A roster entry whose lineup marker is the empty string. -/
def entryEmptyMarker : PlayerEntry :=
  ⟨"Cade Doughty", some "", none, noBatting, noFielding, noPitching⟩

/-- A roster entry whose inningsPitched is the empty string. -/
def entryEmptyIP : PlayerEntry :=
  ⟨"Cade Doughty", none, none, noBatting, noFielding, ⟨none, none, some ""⟩⟩

/-- A roster entry with no marker and no counters. -/
def entryQuiet : PlayerEntry :=
  ⟨"John Doe", none, none, noBatting, noFielding, noPitching⟩

/-- Modelled from the spec's characterization of the participation
heuristic (the comparison side of the boxscore-activity claim), with
the two string conditions stated as the code realizes them: the lineup
marker must be present and non-empty, and inningsPitched present,
non-empty and different from "0.0". -/
def boxscoreActiveSpec (e : PlayerEntry) : Prop :=
  (∃ s, e.battingOrder = some s ∧ s ≠ "") ∨
  0 < e.batting.atBats.getD 0 ∨ 0 < e.batting.plateAppearances.getD 0 ∨
  0 < e.batting.hits.getD 0 ∨ 0 < e.batting.runs.getD 0 ∨
  0 < e.batting.rbi.getD 0 ∨
  0 < e.fielding.putOuts.getD 0 ∨ 0 < e.fielding.assists.getD 0 ∨
  0 < e.fielding.chances.getD 0 ∨
  0 < e.pitching.battersFaced.getD 0 ∨ 0 < e.pitching.pitchesThrown.getD 0 ∨
  (∃ s, e.pitching.inningsPitched = some s ∧ s ≠ "" ∧ s ≠ "0.0")

/-- The provider teams list used by the concrete resolver scenarios. -/
def teamsFixture : List Team :=
  [⟨108, "Glendale Desert Dogs", some "Desert Dogs"⟩,
   ⟨109, "Salt River Rafters", some "Rafters"⟩]

/-- A schedule with events only on day 8 and day 11. -/
def schedTwoDates : Nat → Int → Option Nat :=
  fun _ d => if d = 8 then some 777 else if d = 11 then some 888 else none

/-- A schedule with no events at all. -/
def schedEmpty : Nat → Int → Option Nat := fun _ _ => none

/-- The home roster of the concrete feeds (no Cade Doughty). -/
def rosterHome : List PlayerEntry :=
  [⟨"John Doe", some "301", some "SS", noBatting, noFielding, noPitching⟩]

/-- The away roster of the concrete feeds (no Cade Doughty). -/
def rosterAway : List PlayerEntry := [entryQuiet]

/-- A populated feed for a game between the two fixture teams, with no
plays. -/
def feedTwoTeams : Feed :=
  ⟨some "In Progress", some "Glendale Desert Dogs", some "Salt River Rafters",
   some rosterHome, some rosterAway, []⟩

/-- The same feed with one substitution play mentioning Cade Doughty,
who is on neither roster. -/
def feedSubPlay : Feed :=
  ⟨some "In Progress", some "Glendale Desert Dogs", some "Salt River Rafters",
   some rosterHome, some rosterAway,
   [⟨some "Cade Doughty enters the game, replacing John Doe."⟩]⟩

-- ---------- Watcher lemmas ----------

lemma alertCond_eq_true (p : WatchParams) (st : WState) (s : WStatus)
    (now : Int) :
    alertCond p st s now = true ↔
      st.lastInGame = false ∧ s.inGame = true ∧
        p.cooldownSec * 1000 ≤ now - st.lastAlertAt := by
  simp [alertCond, Bool.and_eq_true, Bool.not_eq_true', decide_eq_true_eq,
    and_assoc]

lemma loopStep_fired_facts (p : WatchParams) (st : WState) (s : WStatus)
    (now : Int) (eo : Bool)
    (h : (loopStep p st (Except.ok s) now eo).2.alertFired = true) :
    st.lastInGame = false ∧ s.inGame = true ∧
      p.cooldownSec * 1000 ≤ now - st.lastAlertAt ∧
      (loopStep p st (Except.ok s) now eo).1.lastAlertAt = now := by
  cases hc : alertCond p st s now with
  | false => simp [loopStep, hc] at h
  | true =>
    have hfacts := (alertCond_eq_true p st s now).mp hc
    cases hsa : p.stopAfterAlert with
    | false => exact ⟨hfacts.1, hfacts.2.1, hfacts.2.2, by simp [loopStep, hc, hsa]⟩
    | true => exact ⟨hfacts.1, hfacts.2.1, hfacts.2.2, by simp [loopStep, hc, hsa]⟩

lemma loopStep_not_fired_lastAlertAt (p : WatchParams) (st : WState)
    (res : Except Unit WStatus) (now : Int) (eo : Bool)
    (h : (loopStep p st res now eo).2.alertFired = false) :
    (loopStep p st res now eo).1.lastAlertAt = st.lastAlertAt := by
  cases res with
  | error e => rfl
  | ok s =>
    cases hc : alertCond p st s now with
    | false => simp [loopStep, hc]
    | true =>
      cases hsa : p.stopAfterAlert with
      | false => simp [loopStep, hc, hsa] at h
      | true => simp [loopStep, hc, hsa] at h

lemma runLoop_alert_chain (p : WatchParams) (eo : Bool)
    (polls : List (Except Unit WStatus × Int)) :
    ∀ st : WState,
      List.Chain (fun a b => p.cooldownSec * 1000 ≤ b - a) st.lastAlertAt
        (alertTimes (runLoop p eo st polls).2) := by
  induction polls with
  | nil => intro st; simp [runLoop, alertTimes]
  | cons pr rest ih =>
    intro st
    obtain ⟨r, t⟩ := pr
    simp only [runLoop]
    cases hn : (loopStep p st r t eo).2.next with
    | none =>
      simp only
      cases hf : (loopStep p st r t eo).2.alertFired with
      | false => simp [alertTimes, hf]
      | true =>
        simp only [alertTimes, hf, List.filter, List.map]
        cases r with
        | error e => simp [loopStep] at hf
        | ok s =>
          have hfacts := loopStep_fired_facts p st s t eo hf
          exact List.Chain.cons hfacts.2.2.1 List.Chain.nil
    | some d =>
      simp only
      cases hf : (loopStep p st r t eo).2.alertFired with
      | false =>
        have hla := loopStep_not_fired_lastAlertAt p st r t eo hf
        simp only [alertTimes, hf, List.filter]
        have := ih (loopStep p st r t eo).1
        rw [hla] at this
        simpa [alertTimes] using this
      | true =>
        cases r with
        | error e => simp [loopStep] at hf
        | ok s =>
          have hfacts := loopStep_fired_facts p st s t eo hf
          simp only [alertTimes, hf, List.filter, List.map]
          have := ih (loopStep p st (Except.ok s) t eo).1
          rw [hfacts.2.2.2] at this
          exact List.Chain.cons hfacts.2.2.1 (by simpa [alertTimes] using this)

lemma chain_gap_all (cd : Int) (hcd : 0 ≤ cd) :
    ∀ (l : List Int) (a : Int),
      List.Chain (fun x y => cd ≤ y - x) a l → ∀ b ∈ l, cd ≤ b - a := by
  intro l
  induction l with
  | nil => intro a _ b hb; simp at hb
  | cons c t ih =>
    intro a h b hb
    cases h with
    | cons h1 h2 =>
      rcases List.mem_cons.mp hb with rfl | hb2
      · exact h1
      · have := ih c h2 b hb2
        omega

lemma chain_gap_pairwise (cd : Int) (hcd : 0 ≤ cd) :
    ∀ (l : List Int) (a : Int),
      List.Chain (fun x y => cd ≤ y - x) a l →
        List.Pairwise (fun x y => cd ≤ y - x) l := by
  intro l
  induction l with
  | nil => intro a _; exact List.Pairwise.nil
  | cons c t ih =>
    intro a h
    cases h with
    | cons h1 h2 =>
      exact List.Pairwise.cons (fun b hb => chain_gap_all cd hcd t c h2 b hb)
        (ih c h2)

-- ---------- Claim theorems: watcher ----------

/-- C1: Rising-edge alerting: in any poll processed by the watcher loop,
the alert branch runs only if the previously observed state was
not-active and the current successful poll observes active; a failed
poll never alerts; and on the poll sequence [active, active, active]
from the initial state exactly one alert fires, on the first poll. -/
theorem rising_edge_alerts_only :
    (∀ (p : WatchParams) (st : WState) (s : WStatus) (now : Int) (eo : Bool),
        (loopStep p st (Except.ok s) now eo).2.alertFired = true →
          st.lastInGame = false ∧ s.inGame = true) ∧
    (∀ (p : WatchParams) (st : WState) (now : Int) (eo : Bool) (e : Unit),
        (loopStep p st (Except.error e) now eo).2.alertFired = false) ∧
    (runLoop watchNoStop true initWState
        [(Except.ok statusActive, 1000000), (Except.ok statusActive, 1005000),
         (Except.ok statusActive, 1010000)]).2.map Prod.fst =
      [true, false, false] := by
  refine ⟨?_, ?_, by decide⟩
  · intro p st s now eo h
    have hfacts := loopStep_fired_facts p st s now eo h
    exact ⟨hfacts.1, hfacts.2.1⟩
  · intro p st now eo e
    rfl

/-- C1 witness: at a concrete alerting poll the previous state was
not-active and the observed state active. -/
theorem rising_edge_alerts_only_witness :
    initWState.lastInGame = false ∧ statusActive.inGame = true :=
  rising_edge_alerts_only.1 watchNoStop initWState statusActive 1000000 true
    (by decide)

/-- C2: Cooldown: for a watcher with auto-stop disabled and a
nonnegative cooldown, the alert times of any run are pairwise at least
cooldownSec * 1000 ms apart; concretely, with the default 300 s
cooldown a second genuine rising edge 20 s after the first alert fires
nothing while a rising edge 400 s after it fires again; and an omitted
cooldownSec defaults to 300. -/
theorem cooldown_enforced :
    (∀ (p : WatchParams) (eo : Bool) (st : WState)
        (polls : List (Except Unit WStatus × Int)),
        p.stopAfterAlert = false → 0 ≤ p.cooldownSec →
          List.Pairwise (fun a b => p.cooldownSec * 1000 ≤ b - a)
            (alertTimes (runLoop p eo st polls).2)) ∧
    (runLoop watchNoStop true initWState
        [(Except.ok statusActive, 1000000), (Except.ok statusInactive, 1010000),
         (Except.ok statusActive, 1020000), (Except.ok statusInactive, 1030000),
         (Except.ok statusActive, 1400000)]).2.map Prod.fst =
      [true, false, false, false, true] ∧
    (mkWatchParams "Cade Doughty" "Glendale Desert Dogs" none none
        none).cooldownSec = 300 := by
  refine ⟨?_, by decide, by decide⟩
  intro p eo st polls _ hcd
  exact chain_gap_pairwise (p.cooldownSec * 1000)
    (mul_nonneg hcd (by norm_num)) _ st.lastAlertAt
    (runLoop_alert_chain p eo polls st)

/-- C2 witness: the pairwise cooldown separation at a concrete run. -/
theorem cooldown_enforced_witness :
    List.Pairwise (fun a b => watchNoStop.cooldownSec * 1000 ≤ b - a)
      (alertTimes (runLoop watchNoStop true initWState
        [(Except.ok statusActive, 1000000), (Except.ok statusActive, 1500000)]).2) :=
  cooldown_enforced.1 watchNoStop true initWState
    [(Except.ok statusActive, 1000000), (Except.ok statusActive, 1500000)]
    (by decide) (by decide)

/-- C3: Alert postcondition: whenever the trigger condition holds on a
successful poll, the alert branch runs and lastAlertAt is set to the
current time; with auto-stop the watcher is stopped, removed from the
registry and not rescheduled, and without it the loop continues at the
selected interval; lastAlertAt changes only on an alert decision; and
no state field, the alert decision, or the rescheduling depends on
whether the notification send succeeded. -/
theorem alert_postconditions :
    (∀ (p : WatchParams) (st : WState) (s : WStatus) (now : Int) (eo : Bool),
        st.lastInGame = false → s.inGame = true →
        p.cooldownSec * 1000 ≤ now - st.lastAlertAt →
          (loopStep p st (Except.ok s) now eo).2.alertFired = true ∧
          (loopStep p st (Except.ok s) now eo).1.lastAlertAt = now ∧
          (p.stopAfterAlert = true →
            (loopStep p st (Except.ok s) now eo).1.stopped = true ∧
            (loopStep p st (Except.ok s) now eo).1.inRegistry = false ∧
            (loopStep p st (Except.ok s) now eo).2.next = none) ∧
          (p.stopAfterAlert = false → st.stopped = false →
            (loopStep p st (Except.ok s) now eo).2.next =
              some (pollInterval s.rawGameState))) ∧
    (∀ (p : WatchParams) (st : WState) (res : Except Unit WStatus) (now : Int)
        (eo : Bool),
        (loopStep p st res now eo).2.alertFired = false →
          (loopStep p st res now eo).1.lastAlertAt = st.lastAlertAt) ∧
    (∀ (p : WatchParams) (st : WState) (res : Except Unit WStatus) (now : Int),
        (loopStep p st res now true).1 = (loopStep p st res now false).1 ∧
        (loopStep p st res now true).2.alertFired =
          (loopStep p st res now false).2.alertFired ∧
        (loopStep p st res now true).2.next =
          (loopStep p st res now false).2.next) := by
  refine ⟨?_, loopStep_not_fired_lastAlertAt, ?_⟩
  · intro p st s now eo h1 h2 h3
    have hc : alertCond p st s now = true :=
      (alertCond_eq_true p st s now).mpr ⟨h1, h2, h3⟩
    cases hsa : p.stopAfterAlert with
    | false =>
      refine ⟨by simp [loopStep, hc, hsa], by simp [loopStep, hc, hsa],
        by intro hx; exact absurd hx (by simp), ?_⟩
      intro _ hst
      simp [loopStep, hc, hsa, hst]
    | true =>
      refine ⟨by simp [loopStep, hc, hsa], by simp [loopStep, hc, hsa], ?_, ?_⟩
      · intro _
        exact ⟨by simp [loopStep, hc, hsa], by simp [loopStep, hc, hsa],
          by simp [loopStep, hc, hsa]⟩
      · intro hx
        exact absurd hx (by simp)
  · intro p st res now
    cases res with
    | error e => exact ⟨rfl, rfl, rfl⟩
    | ok s =>
      cases hc : alertCond p st s now with
      | false => exact ⟨by simp [loopStep, hc], by simp [loopStep, hc],
          by simp [loopStep, hc]⟩
      | true =>
        cases hsa : p.stopAfterAlert with
        | false => exact ⟨by simp [loopStep, hc, hsa], by simp [loopStep, hc, hsa],
            by simp [loopStep, hc, hsa]⟩
        | true => exact ⟨by simp [loopStep, hc, hsa], by simp [loopStep, hc, hsa],
            by simp [loopStep, hc, hsa]⟩

/-- C3 witness: a concrete triggering poll with a failing email send
still records lastAlertAt, and with auto-stop disabled the loop
continues. -/
theorem alert_postconditions_witness :
    (loopStep watchNoStop initWState (Except.ok statusActive) 1000000
        false).2.alertFired = true ∧
    (loopStep watchNoStop initWState (Except.ok statusActive) 1000000
        false).1.lastAlertAt = 1000000 ∧
    (watchNoStop.stopAfterAlert = true →
      (loopStep watchNoStop initWState (Except.ok statusActive) 1000000
          false).1.stopped = true ∧
      (loopStep watchNoStop initWState (Except.ok statusActive) 1000000
          false).1.inRegistry = false ∧
      (loopStep watchNoStop initWState (Except.ok statusActive) 1000000
          false).2.next = none) ∧
    (watchNoStop.stopAfterAlert = false → initWState.stopped = false →
      (loopStep watchNoStop initWState (Except.ok statusActive) 1000000
          false).2.next = some (pollInterval statusActive.rawGameState)) :=
  alert_postconditions.1 watchNoStop initWState statusActive 1000000 false
    (by decide) (by decide) (by decide)

/-- C8: Poll-failure containment: on a failed status fetch the watcher
state (in particular lastInGame and lastAlertAt) is unchanged, no alert
fires, the error is logged, and a non-stopped watcher is rescheduled at
the medium interval POLL_SLOW = 30000 ms. -/
theorem poll_failure_contained :
    ∀ (p : WatchParams) (st : WState) (now : Int) (eo : Bool) (e : Unit),
      st.stopped = false →
        (loopStep p st (Except.error e) now eo).1 = st ∧
        (loopStep p st (Except.error e) now eo).2.alertFired = false ∧
        (loopStep p st (Except.error e) now eo).2.pollErrorLogged = true ∧
        (loopStep p st (Except.error e) now eo).2.next = some POLL_SLOW ∧
        POLL_SLOW = 30000 := by
  intro p st now eo e h
  exact ⟨rfl, rfl, rfl, by simp [loopStep, h], rfl⟩

-- ---------- Entry Detector lemmas and claims ----------

lemma plays_no_mention (plays : List Play) (playerName : String)
    (hp : ∀ pl ∈ plays,
      strIncludes (jsToLower (pl.description.getD "")) (jsToLower playerName)
        = false) :
    playerAppearedFromPlays plays playerName = false := by
  unfold playerAppearedFromPlays
  split
  · rfl
  · simp only [List.any_eq_false]
    intro pl hpl
    simp [hp pl hpl]

lemma boxscore_no_counters (entry : Option PlayerEntry)
    (h : ∀ e, entry = some e →
      countersZeroOrAbsent e ∧ e.battingOrder = none) :
    playerAppearedFromBoxscore entry = false := by
  cases entry with
  | none => rfl
  | some e =>
    obtain ⟨hc, hbo⟩ := h e rfl
    obtain ⟨h1, h2, h3, h4, h5, h6, h7, h8, h9, h10, hip⟩ := hc
    unfold playerAppearedFromBoxscore
    rcases hip with hip | hip <;>
      simp [posCount, strTruthy, hbo, h1, h2, h3, h4, h5, h6, h7, h8, h9,
        h10, hip]

/-- C4 counterexample: a roster entry with every participation counter
zero or absent but a non-null lineup marker, together with an empty play
list (so no description mentions the player), on which the entry
detector nevertheless returns active. -/
theorem detector_marker_counterexample :
    countersZeroOrAbsent entryMarkerOnly ∧
    playerAppearedFromPlays [] "Cade Doughty" = false ∧
    entryDetector (some entryMarkerOnly) [] "Cade Doughty" = true := by
  decide

/-- C4 (amended): if the roster entry is absent, or every participation
counter is zero or absent and the lineup-position marker is null, and no
lowercased play description contains the lowercased player name, the
entry detector returns not-active. -/
theorem detector_inactive_when_no_signal :
    ∀ (entry : Option PlayerEntry) (plays : List Play) (playerName : String),
      (∀ e, entry = some e →
        countersZeroOrAbsent e ∧ e.battingOrder = none) →
      (∀ pl ∈ plays,
        strIncludes (jsToLower (pl.description.getD "")) (jsToLower playerName)
          = false) →
      entryDetector entry plays playerName = false := by
  intro entry plays playerName hentry hplays
  unfold entryDetector
  rw [boxscore_no_counters entry hentry, plays_no_mention plays playerName hplays]
  rfl

/-- C4 witness: the detector is not-active on a markerless counterless
entry with one play that does not mention the player. -/
theorem detector_inactive_when_no_signal_witness :
    entryDetector (some entryQuiet) [⟨some "Jane Roe singles."⟩]
      "Cade Doughty" = false :=
  detector_inactive_when_no_signal (some entryQuiet)
    [⟨some "Jane Roe singles."⟩] "Cade Doughty"
    (fun e he => by injection he with h; subst h; exact ⟨by decide, rfl⟩)
    (by decide)

lemma strTruthy_eq_true_iff (o : Option String) :
    strTruthy o = true ↔ ∃ s, o = some s ∧ s ≠ "" := by
  cases o <;> simp [strTruthy]

lemma posCount_eq_true_iff (x : Option Nat) :
    posCount x = true ↔ 0 < x.getD 0 := by
  simp [posCount, Nat.pos_iff_ne_zero]

lemma ipActive_eq_true_iff (o : Option String) :
    (strTruthy o && !(o.getD "" == "0.0")) = true ↔
      ∃ s, o = some s ∧ s ≠ "" ∧ s ≠ "0.0" := by
  cases o <;> simp [strTruthy]

/-- C5 counterexample: a roster entry whose lineup marker is the
non-null empty string (all counters zero or absent) is not reported
active by the participation heuristic, and an entry whose
inningsPitched is present as the empty string (different from "0.0")
is likewise not reported active. -/
theorem boxscore_marker_counterexample :
    entryEmptyMarker.battingOrder ≠ none ∧
    countersZeroOrAbsent entryEmptyMarker ∧
    playerAppearedFromBoxscore (some entryEmptyMarker) = false ∧
    entryEmptyIP.pitching.inningsPitched ≠ none ∧
    entryEmptyIP.pitching.inningsPitched ≠ some "0.0" ∧
    playerAppearedFromBoxscore (some entryEmptyIP) = false := by
  decide

/-- C5 (amended): a roster entry whose lineup marker is present and
non-empty is reported active regardless of counters, and in general the
participation heuristic reports active exactly when the marker is
present and non-empty, or one of the fixed counters is positive, or
inningsPitched is present, non-empty and different from "0.0". -/
theorem boxscore_active_characterization :
    (∀ e : PlayerEntry, strTruthy e.battingOrder = true →
        playerAppearedFromBoxscore (some e) = true) ∧
    (∀ e : PlayerEntry,
        playerAppearedFromBoxscore (some e) = true ↔ boxscoreActiveSpec e) := by
  constructor
  · intro e h
    simp [playerAppearedFromBoxscore, h]
  · intro e
    unfold playerAppearedFromBoxscore boxscoreActiveSpec
    simp only [Bool.or_eq_true, ipActive_eq_true_iff, strTruthy_eq_true_iff,
      posCount_eq_true_iff, or_assoc]

/-- C5 witness: an entry with marker "501" and no counters is active. -/
theorem boxscore_active_characterization_witness :
    playerAppearedFromBoxscore (some entryMarkerOnly) = true :=
  boxscore_active_characterization.1 entryMarkerOnly (by decide)

-- ---------- Identifier Resolver lemmas and claims ----------

lemma firstEvent_eq_spec (sched : Nat → Int → Option Nat) (tid : Nat)
    (hnz : ∀ d pk, sched tid d = some pk → pk ≠ 0) :
    ∀ l : List Int, firstEvent sched tid l = firstScheduledSpec sched tid l := by
  intro l
  induction l with
  | nil => rfl
  | cons d rest ih =>
    simp only [firstEvent, firstScheduledSpec]
    cases hd : sched tid d with
    | none => exact ih
    | some pk =>
      have hne := hnz d pk hd
      simp [beq_iff_eq, hne]

lemma firstScheduledSpec_append (sched : Nat → Int → Option Nat) (tid : Nat) :
    ∀ l1 l2 : List Int,
      firstScheduledSpec sched tid (l1 ++ l2) =
        (match firstScheduledSpec sched tid l1 with
         | some pk => some pk
         | none => firstScheduledSpec sched tid l2) := by
  intro l1 l2
  induction l1 with
  | nil => rfl
  | cons d rest ih =>
    simp only [List.cons_append, firstScheduledSpec]
    cases hd : sched tid d with
    | none => exact ih
    | some pk => rfl

/-- C6: date-window fallback: when the team resolves and every
scheduled gamePk is nonzero (JS-truthy), the resolver returns exactly
the first scheduled event over the dates [date, date-1, date-2, date-3,
date+1, date+2, date+3] in that order, and fails with the
no-game-found error when the window is empty; concretely, with events
only on date-2 and date+1 the date-2 event is returned, and with an
empty schedule the error is raised. -/
theorem gamepk_fallback_order :
    (∀ (teams : List Team) (sched : Nat → Int → Option Nat) (team : String)
        (date : Int) (tid : Nat),
        getTeamIdByName teams team = Except.ok tid →
        (∀ d pk, sched tid d = some pk → pk ≠ 0) →
          resolveGamePkIfNeeded teams sched team date none false =
            match firstScheduledSpec sched tid
                [date, date - 1, date - 2, date - 3,
                 date + 1, date + 2, date + 3] with
            | some pk => Except.ok (toString pk)
            | none =>
              Except.error "No game found for team near the given date") ∧
    resolveGamePkIfNeeded teamsFixture schedTwoDates "Glendale Desert Dogs" 10
        none false = Except.ok "777" ∧
    resolveGamePkIfNeeded teamsFixture schedEmpty "Glendale Desert Dogs" 10
        none false =
      Except.error "No game found for team near the given date" := by
  refine ⟨?_, by rfl, by rfl⟩
  intro teams sched team date tid htid hnz
  have hres : resolveGamePkIfNeeded teams sched team date none false =
      resolveSearch teams sched team date := rfl
  rw [hres]
  simp only [resolveSearch, htid]
  rw [firstEvent_eq_spec sched tid hnz, firstEvent_eq_spec sched tid hnz,
    firstEvent_eq_spec sched tid hnz]
  have hsplit : ([date, date - 1, date - 2, date - 3,
      date + 1, date + 2, date + 3] : List Int) =
      [date] ++ ([date - 1, date - 2, date - 3] ++
        [date + 1, date + 2, date + 3]) := rfl
  rw [hsplit, firstScheduledSpec_append, firstScheduledSpec_append]
  cases h1 : firstScheduledSpec sched tid [date] with
  | some pk => rfl
  | none =>
    cases h2 : firstScheduledSpec sched tid [date - 1, date - 2, date - 3] with
    | some pk => rfl
    | none =>
      cases h3 : firstScheduledSpec sched tid
          [date + 1, date + 2, date + 3] with
      | some pk => rfl
      | none => rfl

/-- C6 witness: the general fallback-order equation instantiated at the
two-event schedule. -/
theorem gamepk_fallback_order_witness :
    resolveGamePkIfNeeded teamsFixture schedTwoDates "Glendale Desert Dogs" 10
        none false =
      match firstScheduledSpec schedTwoDates 108
          [10, 10 - 1, 10 - 2, 10 - 3, 10 + 1, 10 + 2, 10 + 3] with
      | some pk => Except.ok (toString pk)
      | none => Except.error "No game found for team near the given date" :=
  gamepk_fallback_order.1 teamsFixture schedTwoDates "Glendale Desert Dogs" 10
    108 (by rfl) (fun d pk h => by
      revert h
      unfold schedTwoDates
      split
      · intro h
        injection h with h
        omega
      · split
        · intro h
          injection h with h
          omega
        · intro h
          exact absurd h (by simp))

/-- C7: team-name resolution priority: a first-strategy match
(case-insensitive exact full name) wins outright; failing that, a
second-strategy match (exact short name); failing that, a
third-strategy match (substring of the full name); and when all three
find nothing the resolution fails. -/
theorem team_resolution_priority :
    (∀ (teams : List Team) (q : String) (t : Team),
        teams.find? (nameExactMatch (jsToLower q)) = some t →
          getTeamIdByName teams q = Except.ok t.id) ∧
    (∀ (teams : List Team) (q : String) (t : Team),
        teams.find? (nameExactMatch (jsToLower q)) = none →
        teams.find? (shortNameExactMatch (jsToLower q)) = some t →
          getTeamIdByName teams q = Except.ok t.id) ∧
    (∀ (teams : List Team) (q : String) (t : Team),
        teams.find? (nameExactMatch (jsToLower q)) = none →
        teams.find? (shortNameExactMatch (jsToLower q)) = none →
        teams.find? (nameSubstringMatch (jsToLower q)) = some t →
          getTeamIdByName teams q = Except.ok t.id) ∧
    (∀ (teams : List Team) (q : String),
        teams.find? (nameExactMatch (jsToLower q)) = none →
        teams.find? (shortNameExactMatch (jsToLower q)) = none →
        teams.find? (nameSubstringMatch (jsToLower q)) = none →
          ∃ msg, getTeamIdByName teams q = Except.error msg) := by
  refine ⟨?_, ?_, ?_, ?_⟩
  · intro teams q t h1
    simp [getTeamIdByName, h1]
  · intro teams q t h1 h2
    simp [getTeamIdByName, h1, h2]
  · intro teams q t h1 h2 h3
    simp [getTeamIdByName, h1, h2, h3]
  · intro teams q h1 h2 h3
    exact ⟨"Could not resolve team id for \"" ++ q ++
      "\". Try entering a gamePk or enable Simulation Mode.",
      by simp [getTeamIdByName, h1, h2, h3]⟩

/-- C7 witness: the short-name strategy resolves "Desert Dogs" after
the exact-name strategy fails. -/
theorem team_resolution_priority_witness :
    getTeamIdByName teamsFixture "Desert Dogs" =
      Except.ok (⟨108, "Glendale Desert Dogs", some "Desert Dogs"⟩ : Team).id :=
  team_resolution_priority.2.1 teamsFixture "Desert Dogs"
    ⟨108, "Glendale Desert Dogs", some "Desert Dogs"⟩ (by decide) (by decide)

/-- C8 witness: failure containment at a concrete non-stopped state. -/
theorem poll_failure_contained_witness :
    (loopStep watchNoStop initWState (Except.error ()) 1000000 true).1 =
        initWState ∧
    (loopStep watchNoStop initWState (Except.error ()) 1000000
        true).2.alertFired = false ∧
    (loopStep watchNoStop initWState (Except.error ()) 1000000
        true).2.pollErrorLogged = true ∧
    (loopStep watchNoStop initWState (Except.error ()) 1000000
        true).2.next = some POLL_SLOW ∧
    POLL_SLOW = 30000 :=
  poll_failure_contained watchNoStop initWState 1000000 true () (by decide)

-- ---------- One-shot status and watcher-status claims ----------

/-- C9 counterexample: a non-simulated query with required parameters,
populated boxscore, and a player on neither roster, but whose team
filter matches neither team name, is answered 409 TEAM_MISMATCH rather
than 404 PLAYER_NOT_IN_GAME. -/
theorem status_team_filter_counterexample :
    rosterFindByName rosterHome "Cade Doughty" = none ∧
    rosterFindByName rosterAway "Cade Doughty" = none ∧
    feedTwoTeams.homeBox = some rosterHome ∧
    feedTwoTeams.awayBox = some rosterAway ∧
    (playerStatusHandler false (some "717") (some "Cade Doughty")
        (some "Peoria Javelinas") feedTwoTeams).status = 409 ∧
    (playerStatusHandler false (some "717") (some "Cade Doughty")
        (some "Peoria Javelinas") feedTwoTeams).code =
      some "TEAM_MISMATCH" ∧
    (playerStatusHandler false (some "717") (some "Cade Doughty")
        (some "Peoria Javelinas") feedTwoTeams).status ≠ 404 := by
  decide

/-- C9 (amended): a non-simulated status query with non-empty gamePk
and playerName, whose team filter (if supplied) passes, with both
boxscore sides populated and the player on neither roster, is answered
HTTP 404 with code PLAYER_NOT_IN_GAME and no inGame verdict — not a
normal response claiming the player is merely not active. -/
theorem player_not_found_is_404 :
    ∀ (gp pn : String) (team : Option String) (feed : Feed)
      (hb ab : List PlayerEntry),
      gp ≠ "" → pn ≠ "" →
      teamFilterPasses team feed = true →
      feed.homeBox = some hb → feed.awayBox = some ab →
      rosterFindByName hb pn = none → rosterFindByName ab pn = none →
        playerStatusHandler false (some gp) (some pn) team feed =
          { status := 404, code := some "PLAYER_NOT_IN_GAME", inGame := none,
            side := none, battingOrder := none, position := none,
            simulated := false, reason := none } := by
  intro gp pn team feed hb ab hgp hpn htf hhb hab hfh hfa
  unfold playerStatusHandler
  simp [strTruthy, hgp, hpn, htf, hhb, hab, hfh, hfa]

/-- C9 amended-claim witness: the 404 at a concrete feed without a
team filter. -/
theorem player_not_found_is_404_witness :
    playerStatusHandler false (some "717") (some "Cade Doughty") none
        feedTwoTeams =
      { status := 404, code := some "PLAYER_NOT_IN_GAME", inGame := none,
        side := none, battingOrder := none, position := none,
        simulated := false, reason := none } :=
  player_not_found_is_404 "717" "Cade Doughty" none feedTwoTeams
    rosterHome rosterAway (by decide) (by decide) (by decide) (by decide)
    (by decide) (by decide) (by decide)

/-- C10: the watcher's per-poll status never reports not-found: the
participation heuristic is total on a null roster entry; when the
player is on neither populated roster — and likewise when a boxscore
side is missing — getStatusOnce returns a normal status whose side,
battingOrder and position are all null and whose inGame is exactly the
narrative heuristic; concretely a substitution play alone yields
inGame true with all identifying fields null, on the same snapshot for
which the one-shot endpoint answers 404. -/
theorem watcher_status_no_not_found :
    playerAppearedFromBoxscore none = false ∧
    (∀ (pn : String) (feed : Feed) (hb ab : List PlayerEntry),
        feed.homeBox = some hb → feed.awayBox = some ab →
        rosterFindByName hb pn = none → rosterFindByName ab pn = none →
          getStatusOnce false pn feed =
            { inGame := playerAppearedFromPlays feed.allPlays pn,
              side := none, battingOrder := none, position := none,
              rawGameState := feed.detailedState.getD "Unknown" }) ∧
    (∀ (pn : String) (feed : Feed),
        feed.homeBox = none ∨ feed.awayBox = none →
          getStatusOnce false pn feed =
            { inGame := playerAppearedFromPlays feed.allPlays pn,
              side := none, battingOrder := none, position := none,
              rawGameState := feed.detailedState.getD "Unknown" }) ∧
    getStatusOnce false "Cade Doughty" feedSubPlay =
      { inGame := true, side := none, battingOrder := none, position := none,
        rawGameState := "In Progress" } ∧
    (playerStatusHandler false (some "717") (some "Cade Doughty") none
        feedSubPlay).status = 404 := by
  refine ⟨rfl, ?_, ?_, by decide, by decide⟩
  · intro pn feed hb ab hhb hab hfh hfa
    unfold getStatusOnce
    simp [entryDetector, playerAppearedFromBoxscore, orNull, hhb, hab, hfh, hfa]
  · intro pn feed h
    unfold getStatusOnce
    rcases h with h | h
    · cases ha : feed.awayBox <;>
        simp [entryDetector, playerAppearedFromBoxscore, orNull, h, ha]
    · cases hh : feed.homeBox <;>
        simp [entryDetector, playerAppearedFromBoxscore, orNull, h, hh]

/-- C10 witness: the null-field status at a concrete feed whose rosters
lack the player. -/
theorem watcher_status_no_not_found_witness :
    getStatusOnce false "Cade Doughty" feedTwoTeams =
      { inGame := playerAppearedFromPlays feedTwoTeams.allPlays "Cade Doughty",
        side := none, battingOrder := none, position := none,
        rawGameState := feedTwoTeams.detailedState.getD "Unknown" } :=
  watcher_status_no_not_found.2.1 "Cade Doughty" feedTwoTeams rosterHome
    rosterAway (by decide) (by decide) (by decide) (by decide)

end PlayerAlert
